import Mathlib

/-!
Verification development for the Gemini RAG API core
(src/lib/gemini-file-search.ts and src/lib/rag.ts).

The JavaScript core is shallowly embedded: the in-memory Maps become
association lists, JS truthiness is modeled explicitly, and the
asynchronous backend is a parameter describing the outcomes the code
observes at each await point.
-/

namespace GeminiRag

/-- Lookup in an association list; models JavaScript Map.get. -/
def alookup {α : Type} (k : String) : List (String × α) → Option α
  | [] => none
  | (k2, v) :: rest => if k = k2 then some v else alookup k rest

/-- Insert or replace in an association list; models Map.set, which replaces
in place when the key exists and otherwise appends, preserving iteration
order. -/
def aset {α : Type} (k : String) (v : α) : List (String × α) → List (String × α)
  | [] => [(k, v)]
  | (k2, w) :: rest => if k = k2 then (k, v) :: rest else (k2, w) :: aset k v rest

/-- Delete from an association list; models Map.delete. -/
def adel {α : Type} (k : String) : List (String × α) → List (String × α)
  | [] => []
  | (k2, w) :: rest => if k = k2 then rest else (k2, w) :: adel k rest

/-- Tests whether the pattern occurs at the head of the character list. -/
def charsStartWith : List Char → List Char → Bool
  | [], _ => true
  | _ :: _, [] => false
  | p :: ps, c :: cs => p == c && charsStartWith ps cs

/-- Tests whether the pattern occurs anywhere in the character list. -/
def charsHaveSub (pat : List Char) : List Char → Bool
  | [] => charsStartWith pat []
  | c :: cs => charsStartWith pat (c :: cs) || charsHaveSub pat cs

/-- Models JavaScript String.prototype.includes. -/
def strIncludes (s pat : String) : Bool := charsHaveSub pat.data s.data

/-- Models JavaScript String.prototype.trim: drop leading and trailing
whitespace. Written structurally over the character list so concrete
instances evaluate in the kernel. -/
def jsTrim (s : String) : String :=
  ⟨(((s.data.dropWhile Char.isWhitespace).reverse.dropWhile Char.isWhitespace).reverse)⟩

/-! ## Processing records and the status report
(source: gemini-file-search.ts, uploadedFiles map and getFileProcessingStatus) -/

/-- Processing status of an uploaded file (source type FileProcessingStatus). -/
inductive FileStatus
  | uploading
  | processing
  | ready
  | error
deriving DecidableEq

/-- One entry of the uploadedFiles map. -/
structure FileRecord where
  userId : String
  fileName : String
  size : Nat
  uploadedAt : Nat
  storeName : Option String
  fileDocumentName : Option String := none
  processingStatus : FileStatus
  errorMessage : Option String := none
deriving DecidableEq

/-- The module-level mutable state of gemini-file-search.ts that the upload
pipeline reads and writes: the per-user store map and the per-file record
map (keyed by the string userId_fileName_size). -/
structure GState where
  userFileStores : List (String × String)
  uploadedFiles : List (String × FileRecord)
deriving DecidableEq

/-- One element of the files array returned by getFileProcessingStatus. -/
structure FileView where
  fileName : String
  status : FileStatus
  uploadedAt : Nat
  errorMessage : Option String
  size : Nat
deriving DecidableEq

/-- The object returned by getFileProcessingStatus. -/
structure StatusReport where
  files : List FileView
  allReady : Bool
  processingCount : Nat
  readyCount : Nat
  errorCount : Nat
  totalFiles : Nat
deriving DecidableEq

/-- Model of getFileProcessingStatus (gemini-file-search.ts lines 614-648).
The empty-userId guard branch of the source omits the totalFiles field
(it is undefined in JavaScript); it is modeled as 0, which agrees with the
empty files array the guard returns. -/
def getFileProcessingStatus (g : GState) (userId : String) : StatusReport :=
  if userId = "" then
    { files := [], allReady := false, processingCount := 0, readyCount := 0,
      errorCount := 0, totalFiles := 0 }
  else
    let userFiles : List FileView :=
      ((g.uploadedFiles.map Prod.snd).filter (fun f => f.userId == userId)).map
        (fun f =>
          { fileName := f.fileName, status := f.processingStatus,
            uploadedAt := f.uploadedAt, errorMessage := f.errorMessage,
            size := f.size })
    let processingCount :=
      (userFiles.filter (fun f => f.status == .processing || f.status == .uploading)).length
    let readyCount := (userFiles.filter (fun f => f.status == .ready)).length
    let errorCount := (userFiles.filter (fun f => f.status == .error)).length
    let allReady := decide (userFiles.length > 0) && processingCount == 0 && errorCount == 0
    { files := userFiles, allReady := allReady, processingCount := processingCount,
      readyCount := readyCount, errorCount := errorCount, totalFiles := userFiles.length }

/-! ## Stream normalizer (source: rag.ts, iteratorToStream, lines 49-143) -/

/-- a JavaScript value held in the chunk.text field: either a function (whose
call returns the given result; none models the call throwing, which the source
catches) or a plain string. -/
inductive TextVal
  | tfn (callResult : Option String)
  | tstr (s : String)
deriving DecidableEq

/-- a JavaScript value held in the response.text field: either a function or a
plain string. The source calls response.text() without a guard, so the model
takes the function to return its string. -/
inductive RespTextVal
  | rfn (s : String)
  | rstr (s : String)
deriving DecidableEq

/-- JS truthiness of an optional chunk.text field: absent and the empty string
are falsy, functions and non-empty strings are truthy. -/
def textTruthy : Option TextVal → Bool
  | none => false
  | some (.tfn _) => true
  | some (.tstr s) => s != ""

/-- JS truthiness of an optional response.text field. -/
def respTextTruthy : Option RespTextVal → Bool
  | none => false
  | some (.rfn _) => true
  | some (.rstr s) => s != ""

/-- the string the source obtains from a truthy response.text (calling it when
it is a function). -/
def respTextString : Option RespTextVal → String
  | some (.rfn s) => s
  | some (.rstr s) => s
  | none => ""

/-- One element of a candidates parts array. -/
structure PartObj where
  text : Option String := none
  executableCode : Bool := false
deriving DecidableEq

/-- the filter the source applies to parts: part.text truthy and no
executableCode field. -/
def partKept (p : PartObj) : Bool :=
  (match p.text with | some t => t != "" | none => false) && !p.executableCode

/-- text extracted from a candidates parts array: kept parts joined. -/
def partsText (ps : List PartObj) : String :=
  String.join ((ps.filter partKept).map (fun p => p.text.getD ""))

/-- the chunk.response wrapper: its text field and its
candidates[0].content.parts chain (none when any link is missing). -/
structure RespObj where
  text : Option RespTextVal := none
  parts : Option (List PartObj) := none
deriving DecidableEq

/-- a structured chunk object: its text field, its
candidates[0].content.parts chain (none when any link is missing), its
response wrapper, and the fields read by the final else branch. -/
structure ChunkObj where
  text : Option TextVal := none
  parts : Option (List PartObj) := none
  response : Option RespObj := none
  executableCode : Bool := false
  content : Option String := none
deriving DecidableEq

/-- a chunk yielded by the backend stream: a primitive string or an object. -/
inductive Chunk
  | prim (s : String)
  | obj (o : ChunkObj)
deriving DecidableEq

/-- the final else branch of the extraction chain (rag.ts lines 93-103):
skip chunks carrying executableCode, otherwise read chunk.text (falsy here)
or chunk.content. -/
def extractElse (o : ChunkObj) : String :=
  if o.executableCode then ""
  else
    match o.text with
    | some (.tstr s) => if s != "" then s else o.content.getD ""
    | _ => o.content.getD ""

/-- branches 4 to 6 of the extraction chain: candidates parts, then the
response wrapper's text, then the response wrapper's candidates parts
(an array is truthy even when empty). -/
def extractRest (o : ChunkObj) : String :=
  match o.parts with
  | some ps => partsText ps
  | none =>
    match o.response with
    | some resp =>
      if respTextTruthy resp.text then respTextString resp.text
      else
        match resp.parts with
        | some ps => partsText ps
        | none => extractElse o
    | none => extractElse o

/-- the text the loop body of iteratorToStream extracts from one chunk,
trying the shapes in the source's fixed order: primitive string, text as a
function (a throwing call leaves the empty string; the chain does not fall
through), text as a truthy string, then the remaining shapes. -/
def extractText : Chunk → String
  | .prim s => s
  | .obj o =>
    match o.text with
    | some (.tfn r) => r.getD ""
    | some (.tstr s) => if s != "" then s else extractRest o
    | none => extractRest o

/-- whether processing the chunk sets the hasReceivedData flag in the source
(the primitive-string branch does not set it; the text-function branch sets
it only when the call returns; the parts branches set it only when the
joined text is non-empty; the truthy response.text branch always sets it). -/
def chunkSetsData : Chunk → Bool
  | .prim _ => false
  | .obj o =>
    match o.text with
    | some (.tfn r) => r.isSome
    | some (.tstr s) => if s != "" then true else restSetsData o
    | none => restSetsData o
where
  restSetsData (o : ChunkObj) : Bool :=
    match o.parts with
    | some ps => partsText ps != ""
    | none =>
      match o.response with
      | some resp =>
        if respTextTruthy resp.text then true
        else
          match resp.parts with
          | some ps => partsText ps != ""
          | none => extractElse o != ""
      | none => extractElse o != ""

/-- how the output stream ends: closed cleanly (warned records the soft
no-text-received warning) or errored via controller.error. -/
inductive StreamEnd
  | closed (warned : Bool)
  | errored
deriving DecidableEq

/-- the enqueue decision for one chunk: the extracted text is forwarded only
when it is non-empty and non-empty after trimming (rag.ts line 105). -/
def chunkContribution (c : Chunk) : Option String :=
  let t := extractText c
  if t != "" && jsTrim t != "" then some t else none

/-- the chunk loop of iteratorToStream: extract, update hasReceivedData,
enqueue when the text passes the emptiness checks. -/
def streamRunGo : List Chunk → Bool → List String × Bool
  | [], hasData => ([], hasData)
  | c :: cs, hasData =>
    let t := extractText c
    let rest := streamRunGo cs (hasData || chunkSetsData c)
    (if t != "" && jsTrim t != "" then t :: rest.1 else rest.1, rest.2)

/-- Model of iteratorToStream: the enqueued texts in order, and the clean
close (with the soft warning exactly when no data was received). The model's
branches are total, so the errored end is never produced. -/
def iteratorToStream (chunks : List Chunk) : List String × StreamEnd :=
  ((streamRunGo chunks false).1, .closed (!(streamRunGo chunks false).2))

/-! ## Query orchestration
(source: gemini-file-search.ts queryWithFileSearchStream lines 339-427 and
rag.ts queryRAG lines 145-268) -/

/-- an error thrown by the backend: the optional status and code fields the
source inspects, and the message. -/
structure GenErr where
  status : Option Nat := none
  code : Option Nat := none
  msg : String := ""
deriving DecidableEq

/-- outcome of one generateContentStream call for one model. -/
inductive AttemptRes (α : Type)
  | ok (v : α)
  | err (e : GenErr)
deriving DecidableEq

/-- the fixed candidate model list of the source. -/
def modelsList : List String := ["gemini-2.5-flash", "gemini-2.5-pro"]

/-- the generic error thrown when the candidate list is exhausted with no
recorded error. -/
def noModelsErr : GenErr := { msg := "No available models found" }

/-- the candidate loop of queryWithFileSearchStream: try each model in order;
a 404 or 400 class error records lastError and advances to the next
candidate; any other error, 429 included, is thrown at once; an exhausted
list throws the last recorded error, or the generic error when none was
recorded. Returns the outcome together with the list of models attempted. -/
def tryModelsGo {α : Type} (attempt : String → AttemptRes α) :
    List String → Option GenErr → Except GenErr α × List String
  | [], lastError => (.error (lastError.getD noModelsErr), [])
  | m :: rest, lastError =>
    match attempt m with
    | .ok v => (.ok v, [m])
    | .err e =>
      if e.status = some 404 ∨ e.code = some 404 then
        let r := tryModelsGo attempt rest (some e)
        (r.1, m :: r.2)
      else if e.status = some 400 ∨ e.code = some 400 then
        let r := tryModelsGo attempt rest (some e)
        (r.1, m :: r.2)
      else
        (.error e, [m])

/-- Model of the candidate fallback of queryWithFileSearchStream, given the
per-model outcome of the streaming call. -/
def queryWithFileSearchStream {α : Type} (attempt : String → AttemptRes α) :
    Except GenErr α × List String :=
  tryModelsGo attempt modelsList none

/-- Models String.prototype.toLowerCase, character by character. -/
def jsToLower (s : String) : String := ⟨s.data.map Char.toLower⟩

/-- the diagnostic returned by queryRAG when userId is absent. -/
def authErrorMessage : String :=
  "**Authentication Error**\n\nUser ID is required to query documents. Please log in and try again."

/-- the no-documents diagnostic of the inner catch of queryRAG. -/
def noDocsMessage : String :=
  "**No Documents Uploaded**\n\nI can't answer questions yet because no documents have been uploaded to your knowledge base.\n\n**To get started:**\n1. Upload a document using the file upload area above\n2. Wait a few seconds for the document to be processed (up to 30 seconds)\n3. Then ask your question\n\nOnce you upload a document, I'll be able to answer questions about its content!"

/-- the rate-limit diagnostic of queryRAG. -/
def rateLimitMessage : String :=
  "**Rate Limit Exceeded**\n\nYou've hit the API quota limit. This usually happens when:\n- Making too many requests in a short time\n- Using experimental models with lower quotas\n\n**Solutions:**\n1. Wait a minute and try again\n2. Use a paid API key for higher limits\n3. The system will automatically retry in a moment\n\nPlease try your question again in about a minute."

/-- the model-unavailable diagnostic of queryRAG. -/
def modelConfigMessage : String :=
  "**Model Configuration Issue**\n\nThe AI model is temporarily unavailable. This has been logged and will be fixed.\n\nPlease try again in a moment."

/-- the bad-request diagnostic of queryRAG. -/
def configErrMessage : String :=
  "**Configuration Error**\n\nThere was an issue with the request format. This has been logged.\n\nPlease try again in a moment."

/-- the inaccessible-files diagnostic of queryRAG. -/
def fileAccessMessage : String :=
  "**File Access Issue**\n\nIt seems the uploaded files are not accessible. This can happen if:\n- The server was restarted (files are in a different store)\n- Files are still being indexed (wait 30 seconds after upload)\n- No files have been uploaded yet\n\n**Solutions:**\n1. Re-upload your file(s) to ensure they're in the current store\n2. Wait 30 seconds after uploading before querying\n3. Check the server logs for detailed error information\n\nPlease try uploading your file again and wait a moment before querying."

/-- the generic fallback diagnostic of queryRAG, carrying the raw message. -/
def genericMessage (errText : String) : String :=
  "**Service Temporarily Unavailable**\n\nI'm having trouble processing your request right now. \n\n**Error details:** " ++ errText ++ "\n\nPlease try again in a moment."

/-- the substrings the inner catch of queryRAG looks for (on the lowercased
message) to detect an empty or missing store. -/
def emptyStoreSubstrs : List String :=
  ["empty", "not found", "no files", "not accessible", "no documents",
   "file search store is not properly initialized"]

/-- the substrings the outer catch of queryRAG looks for (case sensitive) to
detect inaccessible files. -/
def fileAccessSubstrs : List String :=
  ["not accessible", "not found", "empty", "different store"]

/-- the error routing of queryRAG for an error thrown while querying: the
inner catch converts store-empty class messages to the no-documents
diagnostic and rethrows anything else; the outer catch then converts 429,
404, 400 and inaccessible-store errors to their diagnostics and everything
else to the generic diagnostic carrying the raw message. The source reads
error.message falling back to JSON.stringify; the model carries the message
directly. -/
def routeQueryError (e : GenErr) : String :=
  if emptyStoreSubstrs.any (fun t => strIncludes (jsToLower e.msg) t) then noDocsMessage
  else if e.status = some 429 then rateLimitMessage
  else if e.status = some 404 ∨ e.code = some 404 then modelConfigMessage
  else if e.status = some 400 ∨ e.code = some 400 then configErrMessage
  else if fileAccessSubstrs.any (fun t => strIncludes e.msg t) then fileAccessMessage
  else genericMessage e.msg

/-- the result of queryRAG: a normalized model stream or a synthetic
diagnostic stream produced by createErrorStream. -/
inductive RagResult
  | stream (texts : List String) (streamEnd : StreamEnd)
  | diag (message : String)
deriving DecidableEq

/-- Model of queryRAG: reject an absent userId with the authentication
diagnostic; otherwise the combined store-resolution and query outcome is the
backend parameter: a successful stream is normalized by iteratorToStream and
a thrown error is routed to a diagnostic stream. -/
def queryRAG (query : String) (userId : String)
    (outcome : Except GenErr (List Chunk)) : RagResult :=
  if userId = "" then .diag authErrorMessage
  else
    match outcome with
    | .ok chunks => .stream (iteratorToStream chunks).1 (iteratorToStream chunks).2
    | .error e => .diag (routeQueryError e)

/-- the chunk grouping of createErrorStream (rag.ts line 18): the message is
split before each space or newline; the JS split on a zero-width lookahead
produces no empty segments except for the empty message. -/
def splitKeepGo (cur : List Char) : List Char → List (List Char)
  | [] => [cur]
  | c :: cs =>
    if (c = ' ' ∨ c = '\n') ∧ cur ≠ [] then cur :: splitKeepGo [c] cs
    else splitKeepGo (cur ++ [c]) cs

/-- Model of createErrorStream: the list of text chunks it enqueues. -/
def createErrorStream (message : String) : List String :=
  (splitKeepGo [] message.data).map List.asString

/-- concatenated text content of a list of stream chunks. -/
def concatTexts (l : List String) : String := ⟨(l.map String.data).join⟩

/-- example per-model outcomes: the first candidate fails with 404, the
second succeeds. Used to instantiate the fallback theorems. -/
def attemptC4Ex : String → AttemptRes Nat := fun m =>
  if m = "gemini-2.5-flash" then .err { status := some 404, msg := "model unavailable" }
  else .ok 7

/-! ## Store registry
(source: gemini-file-search.ts getOrCreateFileSearchStore lines 42-101) -/

/-- registry state: the per-user store map, the per-user in-flight creation
map (holding the creation's identifier), a counter handing out fresh
creation identifiers, and a counter of backend store-creation calls. -/
structure RegState where
  stores : List (String × String)
  pending : List (String × Nat)
  nextCid : Nat
  createCalls : Nat
deriving DecidableEq

/-- the registry state at process start: both maps empty. -/
def emptyReg : RegState := { stores := [], pending := [], nextCid := 0, createCalls := 0 }

/-- how one call observes the synchronous prefix of
getOrCreateFileSearchStore: the cached store, the identifier of the
in-flight creation it awaits, or the identifier of the creation it starts. -/
inductive EntryRes
  | cached (name : String)
  | joined (cid : Nat)
  | started (cid : Nat)
deriving DecidableEq

/-- the synchronous prefix of getOrCreateFileSearchStore, which JavaScript
runs atomically up to the first await inside the creation promise: return
the cached store; otherwise await the in-flight creation; otherwise register
a new creation promise in the pending map before suspending. -/
def getOrCreateEntry (u : String) (s : RegState) : EntryRes × RegState :=
  match alookup u s.stores with
  | some st => (.cached st, s)
  | none =>
    match alookup u s.pending with
    | some c => (.joined c, s)
    | none =>
      (.started s.nextCid,
       { s with pending := aset u s.nextCid s.pending, nextCid := s.nextCid + 1 })

/-- the body of the creation promise (lines 57-95): after the double check
finds no cached store, make exactly one backend creation call, cache the
handle and clear the in-flight marker; when the double check finds a store
cached by another request, return it with no backend call. -/
def storeCreationRun (u : String) (newName : String) (s : RegState) : String × RegState :=
  match alookup u s.stores with
  | some st => (st, { s with pending := adel u s.pending })
  | none =>
    (newName,
     { s with stores := aset u newName s.stores,
              createCalls := s.createCalls + 1,
              pending := adel u s.pending })

/-- n callers run their synchronous prefixes in sequence (every interleaving
of the atomic prefixes is such a sequence). -/
def runEntries (u : String) : Nat → RegState → List EntryRes × RegState
  | 0, s => ([], s)
  | n + 1, s =>
    let e := getOrCreateEntry u s
    let rest := runEntries u n e.2
    (e.1 :: rest.1, rest.2)

/-- whether an entry observation started a creation. -/
def isStarted : EntryRes → Bool
  | .started _ => true
  | _ => false

/-- the race scenario: n concurrent callers for user u enter, then the
single registered creation (when one was started) resolves with the backend
store name; cached callers observe their cached handle and every other
caller awaits the creation's result. When no creation was started every
caller observed a cached handle, so the joined and started arms of the map
are unreachable there. -/
def concurrentGetOrCreate (u : String) (n : Nat) (newName : String) (s : RegState) :
    List String × RegState :=
  let run := runEntries u n s
  if run.1.any isStarted then
    let creation := storeCreationRun u newName run.2
    (run.1.map (fun r => match r with | .cached st => st | _ => creation.1), creation.2)
  else
    (run.1.map (fun r => match r with | .cached st => st | _ => newName), run.2)

/-! ## Upload pipeline and background verifier
(source: gemini-file-search.ts uploadFileToGemini lines 103-279,
verifyFileStateInBackground lines 478-604, updateFileProcessingStatus
lines 651-672) -/

/-- a long-running import operation as the source observes it: the done
flag, the error field (its message), and the response field carrying the
file-document name that the extraction chain of lines 211-226 yields (the
outer Option models a missing response object, the inner one an extraction
that found no name). -/
structure Operation where
  done : Bool
  opError : Option String := none
  response : Option (Option String) := none
deriving DecidableEq

/-- the fileDocumentName extraction: null without a response, otherwise the
name the chain of fallback paths finds in the response. -/
def extractDocName (op : Operation) : Option String :=
  match op.response with
  | none => none
  | some d => d

/-- what the backend does during one upload: the store name it would create
for the user when none is cached, the outcome of uploadToFileSearchStore
(the initial operation, or a thrown error message), the operations.get
results by poll index, and the record another concurrent request inserts
for the same key while this request awaits store resolution (none when no
interference occurs). -/
structure UploadBackend where
  newStoreName : String
  uploadOp : Except String Operation
  polls : Nat → Operation
  interfere : Option FileRecord := none

/-- set the record map entry under fileKey (uploadedFiles.set). -/
def insertRecord (g : GState) (fileKey : String) (fe : FileRecord) : GState :=
  { g with uploadedFiles := aset fileKey fe g.uploadedFiles }

/-- Model of updateFileProcessingStatus: set the status and error message of
the record under the recomputed key, only when a record exists for the key
and belongs to the user; returns whether a record was updated. -/
def updateFileProcessingStatus (g : GState) (userId fileName : String) (fileSize : Nat)
    (status : FileStatus) (errorMessage : Option String) : GState × Bool :=
  let fileKey := userId ++ "_" ++ fileName ++ "_" ++ toString fileSize
  match alookup fileKey g.uploadedFiles with
  | some existingFile =>
    if existingFile.userId = userId then
      let rec2 := { existingFile with processingStatus := status, errorMessage := errorMessage }
      (insertRecord g fileKey rec2, true)
    else (g, false)
  | none => (g, false)

/-- the polling ceiling of the upload import loop (line 180). -/
def uploadMaxAttempts : Nat := 60

/-- the polling interval of the upload import loop, milliseconds (line 182). -/
def uploadPollIntervalMs : Nat := 5000

/-- the polling loop of uploadFileToGemini (lines 179-194), with the
remaining attempts as structural fuel: while the operation is not done and
fewer than uploadMaxAttempts polls were made, fetch the operation again and
throw as soon as a fetched operation reports an error. -/
def pollOperationGo (polls : Nat → Operation) (op : Operation) (attempts : Nat) :
    Nat → Except String Operation
  | 0 => .ok op
  | fuel + 1 =>
    if op.done then .ok op
    else
      let op2 := polls attempts
      match op2.opError with
      | some e => .error ("Upload operation failed: " ++ e)
      | none => pollOperationGo polls op2 (attempts + 1) fuel

/-- the whole polling loop, starting at zero attempts. -/
def pollOperation (polls : Nat → Operation) (op : Operation) : Except String Operation :=
  pollOperationGo polls op 0 uploadMaxAttempts

/-- the synchronous result object of a successful uploadFileToGemini call
(the operationName field of the source is omitted; success is implicit in a
non-thrown result). -/
structure UploadOk where
  fileName : String
  storeName : Option String
  isDuplicate : Bool
  uploadedAt : Option Nat := none
  message : Option String := none
deriving DecidableEq

/-- instrumentation of the upload's externally visible effects: backend
store creations, backend import calls, whether the background verifier was
spawned, and the transient file's creation and release. -/
structure UploadEff where
  storeCreateCalls : Nat := 0
  importCalls : Nat := 0
  verifierSpawned : Bool := false
  tempCreated : Bool := false
  tempReleased : Bool := false
deriving DecidableEq

deriving instance DecidableEq for Except

/-- the full outcome of one uploadFileToGemini call: the returned or thrown
result, the final shared state, the sequence of statuses written to this
record, the effect instrumentation, and the document name handed to the
verifier when one was spawned. -/
structure UploadOutput where
  result : Except String UploadOk
  state : GState
  trace : List FileStatus
  eff : UploadEff
  docName : Option String := none
deriving DecidableEq

/-- whether a result is the duplicate success returned by the
already-exists branch of the catch block. -/
def isDupSuccess : Except String UploadOk → Bool
  | .ok r => r.isDuplicate && r.message == some "File already exists in the store"
  | .error _ => false

/-- the catch block of uploadFileToGemini (lines 248-278): mark the record
error with the thrown message; when the message reports an already existing
or duplicate file, overwrite the record wholesale as ready (dropping any
error message) and return success with isDuplicate, otherwise rethrow. The
transient file is not touched on either path. -/
def uploadCatch (g : GState) (fileKey fileName : String) (size : Nat) (userId : String)
    (now : Nat) (msg : String) (preTrace : List FileStatus) (eff : UploadEff) :
    UploadOutput :=
  let upd := updateFileProcessingStatus g userId fileName size .error (some msg)
  let traceErr := preTrace ++ (if upd.2 then [FileStatus.error] else [])
  if strIncludes msg "already exists" || strIncludes msg "duplicate" then
    let userStore := alookup userId upd.1.userFileStores
    let readyRec : FileRecord :=
      { userId := userId, fileName := fileName, size := size, uploadedAt := now,
        storeName := userStore, processingStatus := .ready }
    let g2 := insertRecord upd.1 fileKey readyRec
    let okRes : UploadOk :=
      { fileName := fileName, storeName := userStore, isDuplicate := true,
        message := some "File already exists in the store" }
    { result := .ok okRes, state := g2, trace := traceErr ++ [.ready], eff := eff }
  else
    { result := .error msg, state := upd.1, trace := traceErr, eff := eff }

/-- the record the source inserts at line 147 when it accepts an upload. -/
def uploadingRecord (userId fileName : String) (size now : Nat) (storeName : String) :
    FileRecord :=
  { userId := userId, fileName := fileName, size := size, uploadedAt := now,
    storeName := some storeName, processingStatus := .uploading }

/-- the import section of uploadFileToGemini (lines 144-247): insert the
uploading record, write the transient file, call uploadToFileSearchStore,
set the record processing, poll the operation, and on success spawn the
background verifier and return; every thrown error goes to the catch
block. -/
def uploadImport (g : GState) (fileName : String) (size : Nat) (userId : String)
    (now : Nat) (b : UploadBackend) (fileKey : String) (storeName : String)
    (eff0 : UploadEff) : UploadOutput :=
  let upRec := uploadingRecord userId fileName size now storeName
  let g3 := insertRecord g fileKey upRec
  let eff1 := { eff0 with tempCreated := true, importCalls := 1 }
  match b.uploadOp with
  | .error msg => uploadCatch g3 fileKey fileName size userId now msg [.uploading] eff1
  | .ok op0 =>
    let upd := updateFileProcessingStatus g3 userId fileName size .processing none
    let trace2 := [FileStatus.uploading] ++ (if upd.2 then [FileStatus.processing] else [])
    match pollOperation b.polls op0 with
    | .error msg => uploadCatch upd.1 fileKey fileName size userId now msg trace2 eff1
    | .ok opF =>
      if opF.done = false then
        uploadCatch upd.1 fileKey fileName size userId now
          "Upload operation timed out after 5 minutes" trace2 eff1
      else
        match opF.opError with
        | some e =>
          uploadCatch upd.1 fileKey fileName size userId now
            ("Upload operation failed: " ++ e) trace2 eff1
        | none =>
          let okRes : UploadOk :=
            { fileName := fileName, storeName := some storeName, isDuplicate := false }
          { result := .ok okRes, state := upd.1, trace := trace2,
            eff := { eff1 with verifierSpawned := true },
            docName := extractDocName opF }

/-- the body of uploadFileToGemini past the first duplicate check: resolve
or create the store, let any concurrent interference land, run the second
duplicate check and either return the duplicate or proceed to the import.
The source compares the two lookups by object identity; the model compares
their values, which agrees whenever the interfering record is fresh. -/
def uploadProceed (g : GState) (fileName : String) (size : Nat) (userId : String)
    (now : Nat) (b : UploadBackend) (fileKey : String)
    (existingFile : Option FileRecord) : UploadOutput :=
  let createNeeded := (alookup userId g.userFileStores).isNone
  let g1 := if createNeeded then
      { g with userFileStores := aset userId b.newStoreName g.userFileStores }
    else g
  let storeName := (alookup userId g1.userFileStores).getD b.newStoreName
  let effStore : UploadEff := { storeCreateCalls := if createNeeded then 1 else 0 }
  let g2 := match b.interfere with
    | some r => insertRecord g1 fileKey r
    | none => g1
  let afterStore := alookup fileKey g2.uploadedFiles
  match afterStore with
  | some r2 =>
    if r2.userId = userId ∧ some r2 ≠ existingFile then
      let okRes : UploadOk :=
        { fileName := fileName, storeName := alookup userId g2.userFileStores,
          isDuplicate := true, uploadedAt := some r2.uploadedAt }
      { result := .ok okRes, state := g2, trace := [], eff := effStore }
    else uploadImport g2 fileName size userId now b fileKey storeName effStore
  | none => uploadImport g2 fileName size userId now b fileKey storeName effStore

/-- Model of uploadFileToGemini: reject an absent userId; return the cached
duplicate when the first check finds a record of this user; otherwise run
the store resolution, the second check and the import. -/
def uploadFileToGemini (g : GState) (fileName : String) (size : Nat) (userId : String)
    (now : Nat) (b : UploadBackend) : UploadOutput :=
  if userId = "" then
    { result := .error "User ID is required for file upload", state := g, trace := [],
      eff := {} }
  else
    let fileKey := userId ++ "_" ++ fileName ++ "_" ++ toString size
    match alookup fileKey g.uploadedFiles with
    | some r =>
      if r.userId = userId then
        let okRes : UploadOk :=
          { fileName := fileName, storeName := alookup userId g.userFileStores,
            isDuplicate := true, uploadedAt := some r.uploadedAt }
        { result := .ok okRes, state := g, trace := [], eff := {} }
      else uploadProceed g fileName size userId now b fileKey (some r)
    | none => uploadProceed g fileName size userId now b fileKey none

/-- the polling ceiling of the background verifier (line 495). -/
def verifyMaxCheckAttempts : Nat := 60

/-- the polling interval of the background verifier, milliseconds (line 498). -/
def verifyCheckIntervalMs : Nat := 2000

/-- one poll of the background verifier: the document state the backend
reports, or a thrown lookup error with its status and message. -/
inductive CheckOutcome
  | stateIs (st : String)
  | checkThrow (status : Option Nat) (msg : String)

/-- the fatal-error test of the verifier's catch (lines 568-571). -/
def isFatalCheckErr (status : Option Nat) (msg : String) : Bool :=
  strIncludes msg "processing failed" || strIncludes msg "FAILED" ||
    status == some 401 || status == some 403

/-- a check outcome that neither finishes nor aborts the verifier: a state
other than ACTIVE and FAILED, or a thrown error the catch treats as
transient. -/
def checkNonTerminal : CheckOutcome → Bool
  | .stateIs st => st != "ACTIVE" && st != "FAILED"
  | .checkThrow status msg => !isFatalCheckErr status msg

/-- how the verifier's loop exits: a fatal catch (early return), or loop
completion with the final fileReady flag. -/
inductive VerifyExit
  | fatal (msg : String)
  | finished (fileReady : Bool)
deriving DecidableEq

/-- the polling loop of verifyFileStateInBackground (lines 497-579), with
the remaining attempts as structural fuel. With a document name, ACTIVE
finishes ready, FAILED throws a message the catch then classifies as fatal,
and anything else polls again; a thrown lookup error returns early only when
the catch classifies it as fatal. Without a document name the file is
optimistically marked ready once the attempt counter reaches six. -/
def verifyLoopGo (docName : Option String) (checks : Nat → CheckOutcome) (attempts : Nat) :
    Nat → VerifyExit
  | 0 => .finished false
  | fuel + 1 =>
    let a := attempts + 1
    match docName with
    | some _ =>
      match checks attempts with
      | .stateIs st =>
        if st = "ACTIVE" then .finished true
        else if st = "FAILED" then
          let m := "File processing failed with state: " ++ st
          if isFatalCheckErr none m then .fatal m else verifyLoopGo docName checks a fuel
        else verifyLoopGo docName checks a fuel
      | .checkThrow status msg =>
        if isFatalCheckErr status msg then .fatal msg
        else verifyLoopGo docName checks a fuel
    | none =>
      if a ≥ 6 then .finished true else verifyLoopGo docName checks a fuel

/-- the whole verifier loop, starting at zero attempts with the full
ceiling as fuel. -/
def verifyLoop (docName : Option String) (checks : Nat → CheckOutcome) : VerifyExit :=
  verifyLoopGo docName checks 0 verifyMaxCheckAttempts

/-- the outcome of one background verification run: the final shared state,
the statuses it wrote to the record, and how many times it unlinked the
transient file. -/
structure VerifyOutput where
  state : GState
  trace : List FileStatus
  unlinkCount : Nat
deriving DecidableEq

/-- Model of verifyFileStateInBackground: run the loop; a fatal catch marks
the record error (falling back to a fixed message when the thrown one is
empty) and unlinks before its early return, after which the finally block
unlinks again; loop completion marks the record ready (backfilling the
document name) or error on timeout, and the finally block unlinks. The
outer catch of the source is unreachable here because nothing after the
inner catch throws. -/
def verifyFileStateInBackground (g : GState) (fileName : String)
    (docName : Option String) (fileKey : String) (userId : String) (fileSize : Nat)
    (checks : Nat → CheckOutcome) : VerifyOutput :=
  match verifyLoop docName checks with
  | .fatal m =>
    let msg := if m = "" then "File processing failed" else m
    let upd := updateFileProcessingStatus g userId fileName fileSize .error (some msg)
    { state := upd.1, trace := if upd.2 then [.error] else [], unlinkCount := 2 }
  | .finished true =>
    let upd := updateFileProcessingStatus g userId fileName fileSize .ready none
    let g2 := match alookup fileKey upd.1.uploadedFiles, docName with
      | some fe, some d =>
        let fe2 := { fe with fileDocumentName := some d }
        insertRecord upd.1 fileKey fe2
      | _, _ => upd.1
    { state := g2, trace := if upd.2 then [.ready] else [], unlinkCount := 1 }
  | .finished false =>
    let upd := updateFileProcessingStatus g userId fileName fileSize .error
      (some "Processing timed out")
    { state := upd.1, trace := if upd.2 then [.error] else [], unlinkCount := 1 }

/-- the whole lifecycle of one record: the upload followed by its background
verifier when one was spawned; the trace concatenates every status written
to the record, and the transient file counts as released exactly when the
verifier ran (the upload itself never unlinks). -/
def uploadLifecycle (g : GState) (fileName : String) (size : Nat) (userId : String)
    (now : Nat) (b : UploadBackend) (checks : Nat → CheckOutcome) : UploadOutput :=
  let up := uploadFileToGemini g fileName size userId now b
  if up.eff.verifierSpawned then
    let fileKey := userId ++ "_" ++ fileName ++ "_" ++ toString size
    let v := verifyFileStateInBackground up.state fileName up.docName fileKey userId size checks
    { result := up.result, state := v.state, trace := up.trace ++ v.trace,
      eff := { up.eff with tempReleased := decide (v.unlinkCount ≥ 1) } }
  else up

/-- the forward order of the status machine uploading → processing →
terminal ready or error: ready and error are absorbing, everything earlier
may advance or stay. -/
def forwardOk : FileStatus → FileStatus → Bool
  | .uploading, _ => true
  | .processing, .uploading => false
  | .processing, _ => true
  | .ready, .ready => true
  | .ready, _ => false
  | .error, .error => true
  | .error, _ => false

/-- whether every adjacent pair of a status trace moves forward. -/
def traceIsForward : List FileStatus → Bool
  | [] => true
  | [_] => true
  | a :: b :: rest => forwardOk a b && traceIsForward (b :: rest)

/-- example state for the status-report and verifier theorems: user u1 with
one record being processed. -/
def recEx : FileRecord :=
  { userId := "u1", fileName := "a.txt", size := 3, uploadedAt := 0,
    storeName := some "store-1", processingStatus := .processing }

/-- example shared state holding recEx under its dedup key. -/
def gUpEx : GState :=
  { userFileStores := [("u1", "store-1")], uploadedFiles := [("u1_a.txt_3", recEx)] }

/-- example shared state with a cached store and no records. -/
def gFreshEx : GState := { userFileStores := [("u1", "store-1")], uploadedFiles := [] }

/-- example backend whose import call throws a backend-reported duplicate. -/
def bDupEx : UploadBackend :=
  { newStoreName := "store-1",
    uploadOp := .error "the file already exists in the store",
    polls := fun _ => { done := true } }

/-- example backend whose operation reports an error on the first poll. -/
def bOpErrEx : UploadBackend :=
  { newStoreName := "store-1",
    uploadOp := .ok { done := false },
    polls := fun _ => { done := false, opError := some "internal" } }

/-- example backend where a concurrent identical upload lands its record
while this request resolves the store. -/
def bInterfereEx : UploadBackend :=
  { newStoreName := "store-1",
    uploadOp := .ok { done := true },
    polls := fun _ => { done := true },
    interfere := some recEx }

/-! ## Theorems -/

theorem aset_lookup_self {α : Type} (k : String) (v : α) (m : List (String × α)) :
    alookup k (aset k v m) = some v := by
  induction m with
  | nil => simp [aset, alookup]
  | cons p rest ih =>
    obtain ⟨k2, w⟩ := p
    by_cases h : k = k2
    · simp [aset, alookup, h]
    · simp [aset, alookup, h, ih]

theorem runEntries_joined (u : String) (n : Nat) (s : RegState) (c : Nat)
    (hst : alookup u s.stores = none) (hp : alookup u s.pending = some c) :
    runEntries u n s = (List.replicate n (.joined c), s) := by
  induction n with
  | zero => simp [runEntries]
  | succ k ih =>
    simp [runEntries, getOrCreateEntry, hst, hp, ih, List.replicate_succ]

/-- Claim C1: the registry returns a cached handle with no backend call and
no state change; a pending creation is joined, never duplicated; and n
concurrent callers starting with no store and no pending creation cause
exactly one backend creation, all observing the same created store name,
which ends cached with the in-flight marker cleared. -/
theorem claim_C1_store_registry :
    (∀ s u st, alookup u s.stores = some st → getOrCreateEntry u s = (.cached st, s)) ∧
    (∀ s u c, alookup u s.stores = none → alookup u s.pending = some c →
      getOrCreateEntry u s = (.joined c, s)) ∧
    (∀ u n newName, 0 < n →
      (concurrentGetOrCreate u n newName emptyReg).2.createCalls = 1 ∧
      (concurrentGetOrCreate u n newName emptyReg).1 = List.replicate n newName ∧
      alookup u (concurrentGetOrCreate u n newName emptyReg).2.stores = some newName ∧
      alookup u (concurrentGetOrCreate u n newName emptyReg).2.pending = none) := by
  refine ⟨?_, ?_, ?_⟩
  · intro s u st h
    simp [getOrCreateEntry, h]
  · intro s u c h1 h2
    simp [getOrCreateEntry, h1, h2]
  · intro u n newName hn
    obtain ⟨m, rfl⟩ : ∃ m, n = m + 1 := ⟨n - 1, by omega⟩
    have hrun : runEntries u (m + 1) emptyReg =
        (EntryRes.started 0 :: List.replicate m (.joined 0),
         { stores := [], pending := [(u, 0)], nextCid := 1, createCalls := 0 }) := by
      have hj := runEntries_joined u m
        { stores := [], pending := [(u, 0)], nextCid := 1, createCalls := 0 } 0
        rfl (by simp [alookup])
      simp [runEntries, getOrCreateEntry, emptyReg, alookup, aset, hj]
    refine ⟨?_, ?_, ?_, ?_⟩ <;>
      simp [concurrentGetOrCreate, hrun, isStarted, storeCreationRun, alookup, adel,
        List.replicate_succ, List.map_replicate]

/-- Witness for claim C1: a cached store is returned untouched, and two
callers racing from the empty registry trigger exactly one backend creation
with both observing the created store. -/
theorem claim_C1_witness :
    getOrCreateEntry "u1"
      { stores := [("u1", "store-A")], pending := [], nextCid := 0, createCalls := 0 } =
      (.cached "store-A",
       { stores := [("u1", "store-A")], pending := [], nextCid := 0, createCalls := 0 }) ∧
    (concurrentGetOrCreate "u1" 2 "store-B" emptyReg).2.createCalls = 1 ∧
    (concurrentGetOrCreate "u1" 2 "store-B" emptyReg).1 = ["store-B", "store-B"] :=
  ⟨claim_C1_store_registry.1 _ "u1" "store-A" (by decide),
   (claim_C1_store_registry.2.2 "u1" 2 "store-B" (by decide)).1,
   (claim_C1_store_registry.2.2 "u1" 2 "store-B" (by decide)).2.1⟩

theorem updateFileProcessingStatus_found (g : GState) (userId fileName : String)
    (fileSize : Nat) (st : FileStatus) (em : Option String) (fe : FileRecord)
    (hrec : alookup (userId ++ "_" ++ fileName ++ "_" ++ toString fileSize)
      g.uploadedFiles = some fe)
    (huid : fe.userId = userId) :
    updateFileProcessingStatus g userId fileName fileSize st em =
      (insertRecord g (userId ++ "_" ++ fileName ++ "_" ++ toString fileSize)
         ({ fe with processingStatus := st, errorMessage := em }),
       true) := by
  simp [updateFileProcessingStatus, hrec, huid]

theorem updateStatus_lookup (g : GState) (userId fileName : String)
    (fileSize : Nat) (st : FileStatus) (em : Option String) (fe : FileRecord)
    (hrec : alookup (userId ++ "_" ++ fileName ++ "_" ++ toString fileSize)
      g.uploadedFiles = some fe)
    (huid : fe.userId = userId) :
    (alookup (userId ++ "_" ++ fileName ++ "_" ++ toString fileSize)
        (updateFileProcessingStatus g userId fileName fileSize st em).1.uploadedFiles).map
      (fun r => (r.processingStatus, r.errorMessage)) = some (st, em) ∧
    (updateFileProcessingStatus g userId fileName fileSize st em).2 = true := by
  rw [updateFileProcessingStatus_found g userId fileName fileSize st em fe hrec huid]
  simp [insertRecord, aset_lookup_self]

theorem verifyLoopGo_nonterminal (d : String) (checks : Nat → CheckOutcome)
    (h : ∀ i, i < verifyMaxCheckAttempts → checkNonTerminal (checks i) = true) :
    ∀ fuel attempts, attempts + fuel = verifyMaxCheckAttempts →
      verifyLoopGo (some d) checks attempts fuel = .finished false := by
  intro fuel
  induction fuel with
  | zero => intro attempts _; rfl
  | succ k ih =>
    intro attempts hsum
    have hi : attempts < verifyMaxCheckAttempts := by
      simp [verifyMaxCheckAttempts] at hsum ⊢; omega
    have hnt := h attempts hi
    have hnext := ih (attempts + 1) (by omega)
    cases hc : checks attempts with
    | stateIs st =>
      simp only [checkNonTerminal, hc, Bool.and_eq_true, bne_iff_ne, ne_eq] at hnt
      simp [verifyLoopGo, hc, hnt.1, hnt.2, hnext]
    | checkThrow status msg =>
      simp only [checkNonTerminal, hc, Bool.not_eq_true'] at hnt
      simp [verifyLoopGo, hc, hnt, hnext]

/-- Claim C7: a background verification whose sixty checks never report
ACTIVE, FAILED or a fatal error leaves the record in status error with the
timeout message, never stuck in processing; and every exit path of the
verifier releases the transient file at least once. -/
theorem claim_C7_verifier_timeout (g : GState) (fileName : String) (d : String)
    (fileKey userId : String) (fileSize : Nat) (checks : Nat → CheckOutcome)
    (fe : FileRecord)
    (hrec : alookup (userId ++ "_" ++ fileName ++ "_" ++ toString fileSize)
      g.uploadedFiles = some fe)
    (huid : fe.userId = userId)
    (hnt : ∀ i, i < verifyMaxCheckAttempts → checkNonTerminal (checks i) = true) :
    ((alookup (userId ++ "_" ++ fileName ++ "_" ++ toString fileSize)
        (verifyFileStateInBackground g fileName (some d) fileKey userId fileSize
          checks).state.uploadedFiles).map
      (fun r => (r.processingStatus, r.errorMessage)) =
      some (FileStatus.error, some "Processing timed out")) ∧
    (verifyFileStateInBackground g fileName (some d) fileKey userId fileSize
      checks).trace = [.error] ∧
    (∀ docName2 (checks2 : Nat → CheckOutcome),
      (verifyFileStateInBackground g fileName docName2 fileKey userId fileSize
        checks2).unlinkCount ≥ 1) ∧
    verifyMaxCheckAttempts = 60 ∧ verifyCheckIntervalMs = 2000 := by
  have hloop : verifyLoop (some d) checks = .finished false :=
    verifyLoopGo_nonterminal d checks hnt verifyMaxCheckAttempts 0 (by omega)
  have hupd := updateStatus_lookup g userId fileName fileSize .error
    (some "Processing timed out") fe hrec huid
  refine ⟨?_, ?_, ?_, rfl, rfl⟩
  · simp only [verifyFileStateInBackground, hloop]
    exact hupd.1
  · simp only [verifyFileStateInBackground, hloop, hupd.2]
    rfl
  · intro dn cks
    cases hv : verifyLoop dn cks with
    | fatal m => simp [verifyFileStateInBackground, hv]
    | finished fr => cases fr <;> simp [verifyFileStateInBackground, hv]

/-- Witness for claim C7: a document stuck in PROCESSING for all sixty
checks ends with the record in error. -/
theorem claim_C7_witness :
    (verifyFileStateInBackground gUpEx "a.txt" (some "doc-1") "u1_a.txt_3" "u1" 3
      (fun _ => .stateIs "PROCESSING")).trace = [.error] :=
  (claim_C7_verifier_timeout gUpEx "a.txt" "doc-1" "u1_a.txt_3" "u1" 3
    (fun _ => .stateIs "PROCESSING") recEx (by decide) (by decide)
    (fun _ _ => rfl)).2.1

/-- Claim C3: a call whose dedup key already has a record of this user
returns at once with isDuplicate and the previously recorded store name, no
state change and no backend call; and the key is re-checked after store
resolution, so a record inserted by a concurrent identical upload also
collapses this call to a duplicate that issues no import. The
well-formedness hypothesis ties the record's stored name to the user's
cached store, which is how every record is created. -/
theorem claim_C3_upload_dedup :
    (∀ g fileName size userId now (b : UploadBackend) (r : FileRecord),
      ¬ userId = "" →
      alookup (userId ++ "_" ++ fileName ++ "_" ++ toString size) g.uploadedFiles = some r →
      r.userId = userId →
      r.storeName = alookup userId g.userFileStores →
      uploadFileToGemini g fileName size userId now b =
        { result := Except.ok
            { fileName := fileName, storeName := r.storeName,
              isDuplicate := true, uploadedAt := some r.uploadedAt },
          state := g, trace := [], eff := {} }) ∧
    (∀ g fileName size userId now (b : UploadBackend) (rI : FileRecord)
        (out : UploadOutput),
      out = uploadFileToGemini g fileName size userId now b →
      ¬ userId = "" →
      alookup (userId ++ "_" ++ fileName ++ "_" ++ toString size) g.uploadedFiles = none →
      b.interfere = some rI → rI.userId = userId →
      (∃ stn, out.result = Except.ok
          { fileName := fileName, storeName := stn,
            isDuplicate := true, uploadedAt := some rI.uploadedAt }) ∧
      out.eff.importCalls = 0 ∧ out.eff.verifierSpawned = false ∧
      out.eff.tempCreated = false ∧ out.trace = []) := by
  constructor
  · intro g fileName size userId now b r hu h2 h3 h4
    simp [uploadFileToGemini, hu, h2, h3, ← h4]
  · intro g fileName size userId now b rI out hout hu h2 hi huid
    subst hout
    have hstep : uploadFileToGemini g fileName size userId now b =
        uploadProceed g fileName size userId now b
          (userId ++ "_" ++ fileName ++ "_" ++ toString size) none := by
      simp [uploadFileToGemini, hu, h2]
    rw [hstep]
    simp only [uploadProceed, hi, insertRecord, aset_lookup_self]
    rw [if_pos ⟨huid, by simp⟩]
    exact ⟨⟨_, rfl⟩, rfl, rfl, rfl, rfl⟩

/-- Witness for claim C3: a re-upload of an already recorded file returns
the duplicate without touching anything, and a record landed by a
concurrent identical upload collapses the second check with no import. -/
theorem claim_C3_witness :
    uploadFileToGemini gUpEx "a.txt" 3 "u1" 5 bDupEx =
      { result := Except.ok
          { fileName := "a.txt", storeName := some "store-1",
            isDuplicate := true, uploadedAt := some 0 },
        state := gUpEx, trace := [], eff := {} } ∧
    (uploadFileToGemini gFreshEx "a.txt" 3 "u1" 5 bInterfereEx).eff.importCalls = 0 :=
  ⟨claim_C3_upload_dedup.1 gUpEx "a.txt" 3 "u1" 5 bDupEx recEx
      (by decide) (by decide) (by decide) (by decide),
   (claim_C3_upload_dedup.2 gFreshEx "a.txt" 3 "u1" 5 bInterfereEx recEx
      (uploadFileToGemini gFreshEx "a.txt" 3 "u1" 5 bInterfereEx) rfl
      (by decide) (by decide) rfl (by decide)).2.1⟩

theorem uploadCatch_nodup (g : GState) (fileKey fileName : String) (size : Nat)
    (userId : String) (now : Nat) (msg : String) (preTrace : List FileStatus)
    (eff : UploadEff)
    (hd1 : strIncludes msg "already exists" = false)
    (hd2 : strIncludes msg "duplicate" = false) :
    uploadCatch g fileKey fileName size userId now msg preTrace eff =
      { result := .error msg,
        state := (updateFileProcessingStatus g userId fileName size .error (some msg)).1,
        trace := preTrace ++
          (if (updateFileProcessingStatus g userId fileName size .error (some msg)).2
            then [FileStatus.error] else []),
        eff := eff } := by
  simp [uploadCatch, hd1, hd2]

theorem uploadFileToGemini_fresh (g : GState) (fileName : String) (size : Nat)
    (userId : String) (now : Nat) (b : UploadBackend)
    (hu : ¬ userId = "")
    (h1 : alookup (userId ++ "_" ++ fileName ++ "_" ++ toString size) g.uploadedFiles = none)
    (hi : b.interfere = none) :
    ∃ gr c, uploadFileToGemini g fileName size userId now b =
      uploadImport gr fileName size userId now b
        (userId ++ "_" ++ fileName ++ "_" ++ toString size)
        ((alookup userId gr.userFileStores).getD b.newStoreName)
        { storeCreateCalls := c } := by
  by_cases hc : (alookup userId g.userFileStores).isNone
  · refine ⟨{ g with userFileStores := aset userId b.newStoreName g.userFileStores }, 1, ?_⟩
    simp [uploadFileToGemini, uploadProceed, hu, h1, hi, hc]
  · refine ⟨g, 0, ?_⟩
    simp [uploadFileToGemini, uploadProceed, hu, h1, hi, hc]

theorem updateStatus_preserves (g : GState) (userId fileName : String) (size : Nat)
    (st : FileStatus) (em : Option String) (fe : FileRecord)
    (hrec : alookup (userId ++ "_" ++ fileName ++ "_" ++ toString size)
      g.uploadedFiles = some fe)
    (huid : fe.userId = userId) :
    ∃ fe2, alookup (userId ++ "_" ++ fileName ++ "_" ++ toString size)
        (updateFileProcessingStatus g userId fileName size st em).1.uploadedFiles =
        some fe2 ∧
      fe2.userId = userId := by
  rw [updateFileProcessingStatus_found g userId fileName size st em fe hrec huid]
  exact ⟨_, aset_lookup_self _ _ _, huid⟩

theorem uploadImport_after_state (gr : GState) (userId fileName : String)
    (size now : Nat) (stn : String) :
    ∃ fe2, alookup (userId ++ "_" ++ fileName ++ "_" ++ toString size)
        (updateFileProcessingStatus
          (insertRecord gr (userId ++ "_" ++ fileName ++ "_" ++ toString size)
            (uploadingRecord userId fileName size now stn))
          userId fileName size .processing none).1.uploadedFiles = some fe2 ∧
      fe2.userId = userId :=
  updateStatus_preserves _ userId fileName size .processing none
    (uploadingRecord userId fileName size now stn) (aset_lookup_self _ _ _) rfl

theorem uploadCatch_nodup_state (g : GState) (fileName : String) (size : Nat)
    (userId : String) (now : Nat) (msg : String) (preTrace : List FileStatus)
    (eff : UploadEff) (fe : FileRecord)
    (hrec : alookup (userId ++ "_" ++ fileName ++ "_" ++ toString size)
      g.uploadedFiles = some fe)
    (huid : fe.userId = userId)
    (hd1 : strIncludes msg "already exists" = false)
    (hd2 : strIncludes msg "duplicate" = false) :
    (uploadCatch g (userId ++ "_" ++ fileName ++ "_" ++ toString size) fileName size
      userId now msg preTrace eff).result = .error msg ∧
    (alookup (userId ++ "_" ++ fileName ++ "_" ++ toString size)
        (uploadCatch g (userId ++ "_" ++ fileName ++ "_" ++ toString size) fileName size
          userId now msg preTrace eff).state.uploadedFiles).map
      (fun r => (r.processingStatus, r.errorMessage)) = some (FileStatus.error, some msg) ∧
    (uploadCatch g (userId ++ "_" ++ fileName ++ "_" ++ toString size) fileName size
      userId now msg preTrace eff).eff = eff := by
  rw [uploadCatch_nodup g _ fileName size userId now msg preTrace eff hd1 hd2]
  exact ⟨rfl, (updateStatus_lookup g userId fileName size .error (some msg) fe hrec huid).1,
    rfl⟩

theorem uploadImport_fatal (gr : GState) (fileName : String) (size : Nat)
    (userId : String) (now : Nat) (b : UploadBackend) (stn : String) (eff0 : UploadEff)
    (op0 : Operation) (msg : String)
    (hop : b.uploadOp = .ok op0)
    (hmsg : pollOperation b.polls op0 = .error msg ∨
      (∃ opF, pollOperation b.polls op0 = .ok opF ∧ opF.done = false ∧
        msg = "Upload operation timed out after 5 minutes") ∨
      (∃ opF e, pollOperation b.polls op0 = .ok opF ∧ opF.done = true ∧
        opF.opError = some e ∧ msg = "Upload operation failed: " ++ e))
    (hd1 : strIncludes msg "already exists" = false)
    (hd2 : strIncludes msg "duplicate" = false) :
    (uploadImport gr fileName size userId now b
      (userId ++ "_" ++ fileName ++ "_" ++ toString size) stn eff0).result =
      .error msg ∧
    (alookup (userId ++ "_" ++ fileName ++ "_" ++ toString size)
        (uploadImport gr fileName size userId now b
          (userId ++ "_" ++ fileName ++ "_" ++ toString size) stn
          eff0).state.uploadedFiles).map
      (fun r => (r.processingStatus, r.errorMessage)) = some (FileStatus.error, some msg) ∧
    (uploadImport gr fileName size userId now b
      (userId ++ "_" ++ fileName ++ "_" ++ toString size) stn eff0).eff =
      { eff0 with tempCreated := true, importCalls := 1 } := by
  obtain ⟨fe2, hrec2, huid2⟩ := uploadImport_after_state gr userId fileName size now stn
  rcases hmsg with herr | ⟨opF, hpoll, hdone, rfl⟩ | ⟨opF, e, hpoll, hdone, herr2, rfl⟩
  · simp only [uploadImport, hop, herr]
    exact uploadCatch_nodup_state _ fileName size userId now msg _ _ fe2 hrec2 huid2 hd1 hd2
  · simp only [uploadImport, hop, hpoll]
    rw [hdone]
    exact uploadCatch_nodup_state _ fileName size userId now _ _ _ fe2 hrec2 huid2 hd1 hd2
  · simp only [uploadImport, hop, hpoll]
    rw [hdone, herr2]
    exact uploadCatch_nodup_state _ fileName size userId now _ _ _ fe2 hrec2 huid2 hd1 hd2

/-- Claim C6 (amended): an operation-reported error or a polling-ceiling
breach is a fatal upload failure: the record is marked error with the error
text and the failure is surfaced to the caller, and only a backend message
reporting an already existing or duplicate file is instead turned into a
duplicate success; however, the transient file is not cleaned up on these
fatal paths — the upload itself never unlinks it, and the background
verifier, the only component that does, is spawned solely on success. -/
theorem claim_C6_fatal_upload (g : GState) (fileName : String) (size : Nat)
    (userId : String) (now : Nat) (b : UploadBackend) (checks : Nat → CheckOutcome)
    (op0 : Operation) (msg : String)
    (hu : ¬ userId = "")
    (h1 : alookup (userId ++ "_" ++ fileName ++ "_" ++ toString size) g.uploadedFiles = none)
    (hi : b.interfere = none)
    (hop : b.uploadOp = .ok op0)
    (hmsg : pollOperation b.polls op0 = .error msg ∨
      (∃ opF, pollOperation b.polls op0 = .ok opF ∧ opF.done = false ∧
        msg = "Upload operation timed out after 5 minutes") ∨
      (∃ opF e, pollOperation b.polls op0 = .ok opF ∧ opF.done = true ∧
        opF.opError = some e ∧ msg = "Upload operation failed: " ++ e))
    (hd1 : strIncludes msg "already exists" = false)
    (hd2 : strIncludes msg "duplicate" = false) :
    (uploadFileToGemini g fileName size userId now b).result = .error msg ∧
    (alookup (userId ++ "_" ++ fileName ++ "_" ++ toString size)
        (uploadFileToGemini g fileName size userId now b).state.uploadedFiles).map
      (fun r => (r.processingStatus, r.errorMessage)) = some (FileStatus.error, some msg) ∧
    (uploadFileToGemini g fileName size userId now b).eff.verifierSpawned = false ∧
    (uploadFileToGemini g fileName size userId now b).eff.tempCreated = true ∧
    (uploadLifecycle g fileName size userId now b checks).eff.tempReleased = false ∧
    uploadMaxAttempts = 60 ∧ uploadPollIntervalMs = 5000 := by
  obtain ⟨gr, c, heq⟩ := uploadFileToGemini_fresh g fileName size userId now b hu h1 hi
  have hfatal := uploadImport_fatal gr fileName size userId now b
    ((alookup userId gr.userFileStores).getD b.newStoreName)
    { storeCreateCalls := c } op0 msg hop hmsg hd1 hd2
  have hspawn : (uploadFileToGemini g fileName size userId now b).eff.verifierSpawned =
      false := by
    rw [heq, hfatal.2.2]
  refine ⟨?_, ?_, hspawn, ?_, ?_, rfl, rfl⟩
  · rw [heq]; exact hfatal.1
  · rw [heq]; exact hfatal.2.1
  · rw [heq, hfatal.2.2]
  · simp only [uploadLifecycle, hspawn, Bool.false_eq_true, if_false]
    rw [heq, hfatal.2.2]

/-- Witness for claim C6: a backend whose operation reports an internal
error on the first poll surfaces the failure and leaves the transient file
unreleased. -/
theorem claim_C6_witness :
    (uploadFileToGemini gFreshEx "a.txt" 3 "u1" 5 bOpErrEx).result =
      .error "Upload operation failed: internal" ∧
    (uploadLifecycle gFreshEx "a.txt" 3 "u1" 5 bOpErrEx
      (fun _ => .stateIs "ACTIVE")).eff.tempReleased = false :=
  ⟨(claim_C6_fatal_upload gFreshEx "a.txt" 3 "u1" 5 bOpErrEx (fun _ => .stateIs "ACTIVE")
      { done := false } "Upload operation failed: internal"
      (by decide) (by decide) rfl rfl (Or.inl (by decide)) (by decide) (by decide)).1,
   (claim_C6_fatal_upload gFreshEx "a.txt" 3 "u1" 5 bOpErrEx (fun _ => .stateIs "ACTIVE")
      { done := false } "Upload operation failed: internal"
      (by decide) (by decide) rfl rfl (Or.inl (by decide)) (by decide) (by decide)).2.2.2.2.1⟩

/-- Counterexample to claim C6 as stated: on an operation-reported error the
upload fails and the record is marked error, but the transient file is
never cleaned up — it was created, no verifier runs, and nothing releases
it. -/
theorem claim_C6_counterexample :
    (uploadLifecycle gFreshEx "a.txt" 3 "u1" 5 bOpErrEx
      (fun _ => .stateIs "ACTIVE")).result = .error "Upload operation failed: internal" ∧
    (uploadLifecycle gFreshEx "a.txt" 3 "u1" 5 bOpErrEx
      (fun _ => .stateIs "ACTIVE")).eff.tempCreated = true ∧
    (uploadLifecycle gFreshEx "a.txt" 3 "u1" 5 bOpErrEx
      (fun _ => .stateIs "ACTIVE")).eff.tempReleased = false := by
  refine ⟨?_, ?_, ?_⟩ <;> decide

theorem uploadCatch_cases (g : GState) (fileKey fileName : String) (size : Nat)
    (userId : String) (now : Nat) (msg : String) (preTrace : List FileStatus)
    (eff : UploadEff) :
    (uploadCatch g fileKey fileName size userId now msg preTrace eff).eff = eff ∧
    (((uploadCatch g fileKey fileName size userId now msg preTrace eff).trace = preTrace ∨
      (uploadCatch g fileKey fileName size userId now msg preTrace eff).trace =
        preTrace ++ [FileStatus.error]) ∨
     (((uploadCatch g fileKey fileName size userId now msg preTrace eff).trace =
          preTrace ++ [FileStatus.ready] ∨
       (uploadCatch g fileKey fileName size userId now msg preTrace eff).trace =
          preTrace ++ [FileStatus.error, FileStatus.ready]) ∧
      isDupSuccess (uploadCatch g fileKey fileName size userId now msg preTrace eff).result =
        true)) := by
  by_cases hdup : (strIncludes msg "already exists" || strIncludes msg "duplicate") = true
  · by_cases hupd :
        (updateFileProcessingStatus g userId fileName size .error (some msg)).2 = true
    · refine ⟨by simp [uploadCatch, hdup], Or.inr ⟨Or.inr ?_, ?_⟩⟩ <;>
        simp [uploadCatch, hdup, hupd, isDupSuccess]
    · refine ⟨by simp [uploadCatch, hdup], Or.inr ⟨Or.inl ?_, ?_⟩⟩ <;>
        simp [uploadCatch, hdup, hupd, isDupSuccess]
  · by_cases hupd :
        (updateFileProcessingStatus g userId fileName size .error (some msg)).2 = true
    · refine ⟨by simp [uploadCatch, hdup], Or.inl (Or.inr ?_)⟩
      simp [uploadCatch, hdup, hupd]
    · refine ⟨by simp [uploadCatch, hdup], Or.inl (Or.inl ?_)⟩
      simp [uploadCatch, hdup, hupd]

theorem uploadImport_shape (g : GState) (fileName : String) (size : Nat) (userId : String)
    (now : Nat) (b : UploadBackend) (fileKey storeName : String) (eff0 : UploadEff) :
    ∃ pre, (pre = [FileStatus.uploading] ∨
        pre = [FileStatus.uploading, FileStatus.processing]) ∧
      (((uploadImport g fileName size userId now b fileKey storeName eff0).trace = pre ∧
        (uploadImport g fileName size userId now b fileKey storeName
          eff0).eff.verifierSpawned = true) ∨
       (((uploadImport g fileName size userId now b fileKey storeName eff0).trace = pre ∨
         (uploadImport g fileName size userId now b fileKey storeName eff0).trace =
           pre ++ [FileStatus.error]) ∧
        (uploadImport g fileName size userId now b fileKey storeName
          eff0).eff.verifierSpawned = eff0.verifierSpawned) ∨
       (((uploadImport g fileName size userId now b fileKey storeName eff0).trace =
           pre ++ [FileStatus.ready] ∨
         (uploadImport g fileName size userId now b fileKey storeName eff0).trace =
           pre ++ [FileStatus.error, FileStatus.ready]) ∧
        (uploadImport g fileName size userId now b fileKey storeName
          eff0).eff.verifierSpawned = eff0.verifierSpawned ∧
        isDupSuccess (uploadImport g fileName size userId now b fileKey storeName
          eff0).result = true)) := by
  cases hop : b.uploadOp with
  | error msg =>
    refine ⟨[FileStatus.uploading], Or.inl rfl, ?_⟩
    obtain ⟨heff, hcs⟩ := uploadCatch_cases
      (insertRecord g fileKey (uploadingRecord userId fileName size now storeName))
      fileKey fileName size userId now msg [FileStatus.uploading]
      { eff0 with tempCreated := true, importCalls := 1 }
    simp only [uploadImport, hop]
    rcases hcs with htr | ⟨htr, hdup⟩
    · exact Or.inr (Or.inl ⟨htr, (congrArg UploadEff.verifierSpawned heff).trans rfl⟩)
    · exact Or.inr (Or.inr ⟨htr, (congrArg UploadEff.verifierSpawned heff).trans rfl, hdup⟩)
  | ok op0 =>
    refine ⟨[FileStatus.uploading] ++
      (if (updateFileProcessingStatus
            (insertRecord g fileKey (uploadingRecord userId fileName size now storeName))
            userId fileName size FileStatus.processing none).2
        then [FileStatus.processing] else []), ?_, ?_⟩
    · by_cases hupd : (updateFileProcessingStatus
          (insertRecord g fileKey (uploadingRecord userId fileName size now storeName))
          userId fileName size FileStatus.processing none).2 = true <;>
        simp [hupd]
    · simp only [uploadImport, hop]
      cases hpoll : pollOperation b.polls op0 with
      | error msg =>
        obtain ⟨heff, hcs⟩ := uploadCatch_cases
          (updateFileProcessingStatus
            (insertRecord g fileKey (uploadingRecord userId fileName size now storeName))
            userId fileName size FileStatus.processing none).1
          fileKey fileName size userId now msg
          ([FileStatus.uploading] ++
            (if (updateFileProcessingStatus
                  (insertRecord g fileKey (uploadingRecord userId fileName size now storeName))
                  userId fileName size FileStatus.processing none).2
              then [FileStatus.processing] else []))
          { eff0 with tempCreated := true, importCalls := 1 }
        rcases hcs with htr | ⟨htr, hdup⟩
        · exact Or.inr (Or.inl ⟨htr, (congrArg UploadEff.verifierSpawned heff).trans rfl⟩)
        · exact Or.inr (Or.inr ⟨htr, (congrArg UploadEff.verifierSpawned heff).trans rfl, hdup⟩)
      | ok opF =>
        dsimp only
        obtain ⟨heffT, hcsT⟩ := uploadCatch_cases
          (updateFileProcessingStatus
            (insertRecord g fileKey (uploadingRecord userId fileName size now storeName))
            userId fileName size FileStatus.processing none).1
          fileKey fileName size userId now "Upload operation timed out after 5 minutes"
          ([FileStatus.uploading] ++
            (if (updateFileProcessingStatus
                  (insertRecord g fileKey (uploadingRecord userId fileName size now storeName))
                  userId fileName size FileStatus.processing none).2
              then [FileStatus.processing] else []))
          { eff0 with tempCreated := true, importCalls := 1 }
        by_cases hdone : opF.done = false
        · rw [hdone]
          rcases hcsT with htr | ⟨htr, hdup⟩
          · exact Or.inr (Or.inl ⟨htr, (congrArg UploadEff.verifierSpawned heffT).trans rfl⟩)
          · exact Or.inr (Or.inr ⟨htr, (congrArg UploadEff.verifierSpawned heffT).trans rfl, hdup⟩)
        · have hdone2 : opF.done = true := by
            rcases Bool.eq_false_or_eq_true opF.done with h | h
            · exact h
            · exact absurd h hdone
          rw [hdone2]
          cases herr2 : opF.opError with
          | some e =>
            obtain ⟨heffE, hcsE⟩ := uploadCatch_cases
              (updateFileProcessingStatus
                (insertRecord g fileKey (uploadingRecord userId fileName size now storeName))
                userId fileName size FileStatus.processing none).1
              fileKey fileName size userId now ("Upload operation failed: " ++ e)
              ([FileStatus.uploading] ++
                (if (updateFileProcessingStatus
                      (insertRecord g fileKey
                        (uploadingRecord userId fileName size now storeName))
                      userId fileName size FileStatus.processing none).2
                  then [FileStatus.processing] else []))
              { eff0 with tempCreated := true, importCalls := 1 }
            rcases hcsE with htr | ⟨htr, hdup⟩
            · exact Or.inr (Or.inl ⟨htr, (congrArg UploadEff.verifierSpawned heffE).trans rfl⟩)
            · exact Or.inr (Or.inr ⟨htr, (congrArg UploadEff.verifierSpawned heffE).trans rfl, hdup⟩)
          | none =>
            exact Or.inl ⟨rfl, rfl⟩

theorem uploadProceed_shape (g : GState) (fileName : String) (size : Nat) (userId : String)
    (now : Nat) (b : UploadBackend) (fileKey : String) (existingFile : Option FileRecord) :
    ((uploadProceed g fileName size userId now b fileKey existingFile).trace = [] ∧
     (uploadProceed g fileName size userId now b fileKey
       existingFile).eff.verifierSpawned = false) ∨
    (∃ pre, (pre = [FileStatus.uploading] ∨
        pre = [FileStatus.uploading, FileStatus.processing]) ∧
      (((uploadProceed g fileName size userId now b fileKey existingFile).trace = pre ∧
        (uploadProceed g fileName size userId now b fileKey
          existingFile).eff.verifierSpawned = true) ∨
       (((uploadProceed g fileName size userId now b fileKey existingFile).trace = pre ∨
         (uploadProceed g fileName size userId now b fileKey existingFile).trace =
           pre ++ [FileStatus.error]) ∧
        (uploadProceed g fileName size userId now b fileKey
          existingFile).eff.verifierSpawned = false) ∨
       (((uploadProceed g fileName size userId now b fileKey existingFile).trace =
           pre ++ [FileStatus.ready] ∨
         (uploadProceed g fileName size userId now b fileKey existingFile).trace =
           pre ++ [FileStatus.error, FileStatus.ready]) ∧
        (uploadProceed g fileName size userId now b fileKey
          existingFile).eff.verifierSpawned = false ∧
        isDupSuccess (uploadProceed g fileName size userId now b fileKey
          existingFile).result = true))) := by
  unfold uploadProceed
  dsimp only
  set g1 := (if (alookup userId g.userFileStores).isNone then
      { g with userFileStores := aset userId b.newStoreName g.userFileStores }
    else g) with hg1
  set stn := (alookup userId g1.userFileStores).getD b.newStoreName with hstn
  set effStore : UploadEff :=
    { storeCreateCalls := if (alookup userId g.userFileStores).isNone then 1 else 0 }
    with heffStore
  set g2 := (match b.interfere with
    | some r => insertRecord g1 fileKey r
    | none => g1) with hg2
  cases hAS : alookup fileKey g2.uploadedFiles with
  | some r2 =>
    dsimp only
    by_cases hcnd : r2.userId = userId ∧ some r2 ≠ existingFile
    · rw [if_pos hcnd]
      exact Or.inl ⟨rfl, rfl⟩
    · rw [if_neg hcnd]
      exact Or.inr (uploadImport_shape g2 fileName size userId now b fileKey stn effStore)
  | none =>
    exact Or.inr (uploadImport_shape g2 fileName size userId now b fileKey stn effStore)

theorem uploadFileToGemini_shape (g : GState) (fileName : String) (size : Nat)
    (userId : String) (now : Nat) (b : UploadBackend) :
    ((uploadFileToGemini g fileName size userId now b).trace = [] ∧
     (uploadFileToGemini g fileName size userId now b).eff.verifierSpawned = false) ∨
    (∃ pre, (pre = [FileStatus.uploading] ∨
        pre = [FileStatus.uploading, FileStatus.processing]) ∧
      (((uploadFileToGemini g fileName size userId now b).trace = pre ∧
        (uploadFileToGemini g fileName size userId now b).eff.verifierSpawned = true) ∨
       (((uploadFileToGemini g fileName size userId now b).trace = pre ∨
         (uploadFileToGemini g fileName size userId now b).trace =
           pre ++ [FileStatus.error]) ∧
        (uploadFileToGemini g fileName size userId now b).eff.verifierSpawned = false) ∨
       (((uploadFileToGemini g fileName size userId now b).trace =
           pre ++ [FileStatus.ready] ∨
         (uploadFileToGemini g fileName size userId now b).trace =
           pre ++ [FileStatus.error, FileStatus.ready]) ∧
        (uploadFileToGemini g fileName size userId now b).eff.verifierSpawned = false ∧
        isDupSuccess (uploadFileToGemini g fileName size userId now b).result = true))) := by
  by_cases hu : userId = ""
  · left
    simp [uploadFileToGemini, hu]
  · cases hA : alookup (userId ++ "_" ++ fileName ++ "_" ++ toString size) g.uploadedFiles with
    | some r =>
      by_cases hr : r.userId = userId
      · left
        simp [uploadFileToGemini, hu, hA, hr]
      · have hstep : uploadFileToGemini g fileName size userId now b =
            uploadProceed g fileName size userId now b
              (userId ++ "_" ++ fileName ++ "_" ++ toString size) (some r) := by
          simp [uploadFileToGemini, hu, hA, hr]
        rw [hstep]
        exact uploadProceed_shape g fileName size userId now b _ (some r)
    | none =>
      have hstep : uploadFileToGemini g fileName size userId now b =
          uploadProceed g fileName size userId now b
            (userId ++ "_" ++ fileName ++ "_" ++ toString size) none := by
        simp [uploadFileToGemini, hu, hA]
      rw [hstep]
      exact uploadProceed_shape g fileName size userId now b _ none

theorem verifier_trace_cases (g : GState) (fileName : String) (docName : Option String)
    (fileKey userId : String) (fileSize : Nat) (checks : Nat → CheckOutcome) :
    (verifyFileStateInBackground g fileName docName fileKey userId fileSize checks).trace =
      ([] : List FileStatus) ∨
    (verifyFileStateInBackground g fileName docName fileKey userId fileSize checks).trace =
      [FileStatus.ready] ∨
    (verifyFileStateInBackground g fileName docName fileKey userId fileSize checks).trace =
      [FileStatus.error] := by
  cases hv : verifyLoop docName checks with
  | fatal m =>
    rcases Bool.eq_false_or_eq_true (updateFileProcessingStatus g userId fileName fileSize
        .error (some (if m = "" then "File processing failed" else m))).2 with h | h <;>
      simp [verifyFileStateInBackground, hv, h]
  | finished fr =>
    cases fr with
    | true =>
      rcases Bool.eq_false_or_eq_true (updateFileProcessingStatus g userId fileName fileSize
          .ready none).2 with h | h <;>
        simp [verifyFileStateInBackground, hv, h]
    | false =>
      rcases Bool.eq_false_or_eq_true (updateFileProcessingStatus g userId fileName fileSize
          .error (some "Processing timed out")).2 with h | h <;>
        simp [verifyFileStateInBackground, hv, h]

/-- Claim C2 (amended): over a record's whole modeled lifecycle — upload,
duplicate re-upload, the backend-reported already-exists branch, background
verification, status updates — the status trace moves forward through
uploading → processing → ready or error, except in the already-exists
branch, where the catch first marks the record error and then overwrites it
to ready. -/
theorem claim_C2_status_forward (g : GState) (fileName : String) (size : Nat)
    (userId : String) (now : Nat) (b : UploadBackend) (checks : Nat → CheckOutcome) :
    traceIsForward (uploadLifecycle g fileName size userId now b checks).trace = true ∨
    (∃ pre, (uploadLifecycle g fileName size userId now b checks).trace =
        pre ++ [FileStatus.error, FileStatus.ready] ∧
      traceIsForward (pre ++ [FileStatus.error]) = true ∧
      isDupSuccess (uploadLifecycle g fileName size userId now b checks).result = true) := by
  rcases uploadFileToGemini_shape g fileName size userId now b with
    ⟨htr, hsp⟩ | ⟨pre, hpre, hcase⟩
  · left
    simp [uploadLifecycle, hsp, htr, traceIsForward]
  · rcases hcase with ⟨htr, hsp⟩ | ⟨htr, hsp⟩ | ⟨htr, hsp, hdup⟩
    · left
      have hv := verifier_trace_cases (uploadFileToGemini g fileName size userId now b).state
        fileName (uploadFileToGemini g fileName size userId now b).docName
        (userId ++ "_" ++ fileName ++ "_" ++ toString size) userId size checks
      simp only [uploadLifecycle, hsp, if_true]
      rw [htr]
      rcases hpre with rfl | rfl <;> rcases hv with hvt | hvt | hvt <;> rw [hvt] <;> decide
    · left
      simp only [uploadLifecycle, hsp, Bool.false_eq_true, if_false]
      rcases htr with htr | htr <;> rw [htr] <;> rcases hpre with rfl | rfl <;> decide
    · rcases htr with htr | htr
      · left
        simp only [uploadLifecycle, hsp, Bool.false_eq_true, if_false]
        rw [htr]
        rcases hpre with rfl | rfl <;> decide
      · right
        refine ⟨pre, ?_, ?_, ?_⟩
        · simp only [uploadLifecycle, hsp, Bool.false_eq_true, if_false]
          exact htr
        · rcases hpre with rfl | rfl <;> decide
        · simp only [uploadLifecycle, hsp, Bool.false_eq_true, if_false]
          exact hdup

/-- Counterexample to claim C2 as stated: a backend-reported duplicate makes
the record's status trace pass uploading → error → ready, and error → ready
is not a forward transition. -/
theorem claim_C2_counterexample :
    (uploadFileToGemini gFreshEx "a.txt" 3 "u1" 5 bDupEx).trace =
      [FileStatus.uploading, FileStatus.error, FileStatus.ready] ∧
    traceIsForward (uploadFileToGemini gFreshEx "a.txt" 3 "u1" 5 bDupEx).trace = false ∧
    forwardOk FileStatus.error FileStatus.ready = false := by
  refine ⟨?_, ?_, ?_⟩ <;> decide

theorem streamRunGo_eq_filterMap (chunks : List Chunk) (h : Bool) :
    (streamRunGo chunks h).1 = chunks.filterMap chunkContribution := by
  induction chunks generalizing h with
  | nil => rfl
  | cons c cs ih =>
    by_cases hc : (extractText c != "" && jsTrim (extractText c) != "") = true
    · simp [streamRunGo, chunkContribution, hc, ih]
    · simp [streamRunGo, chunkContribution, hc, ih]

/-- Claim C8: for every user u, getProcessingStatus(u).allReady is false
whenever processingCount > 0 or errorCount > 0, and is true exactly when
totalFiles > 0 and both processingCount and errorCount are zero, where
processingCount counts files in status processing or uploading, readyCount
counts ready files, and errorCount counts error files. -/
theorem claim_C8_all_ready (g : GState) (u : String) :
    (((getFileProcessingStatus g u).processingCount > 0 ∨
        (getFileProcessingStatus g u).errorCount > 0) →
      (getFileProcessingStatus g u).allReady = false) ∧
    ((getFileProcessingStatus g u).allReady = true ↔
      (getFileProcessingStatus g u).totalFiles > 0 ∧
      (getFileProcessingStatus g u).processingCount = 0 ∧
      (getFileProcessingStatus g u).errorCount = 0) ∧
    (getFileProcessingStatus g u).processingCount =
      ((getFileProcessingStatus g u).files.filter
        (fun f => f.status == .processing || f.status == .uploading)).length ∧
    (getFileProcessingStatus g u).readyCount =
      ((getFileProcessingStatus g u).files.filter (fun f => f.status == .ready)).length ∧
    (getFileProcessingStatus g u).errorCount =
      ((getFileProcessingStatus g u).files.filter (fun f => f.status == .error)).length ∧
    (getFileProcessingStatus g u).totalFiles = (getFileProcessingStatus g u).files.length := by
  by_cases hu : u = ""
  · simp [getFileProcessingStatus, hu]
  · have hiff : (getFileProcessingStatus g u).allReady = true ↔
        (getFileProcessingStatus g u).totalFiles > 0 ∧
        (getFileProcessingStatus g u).processingCount = 0 ∧
        (getFileProcessingStatus g u).errorCount = 0 := by
      simp only [getFileProcessingStatus, hu, if_false, Bool.and_eq_true,
        decide_eq_true_eq, beq_iff_eq] <;> omega
    refine ⟨?_, hiff, ?_, ?_, ?_, ?_⟩
    · intro hpe
      rcases Bool.eq_false_or_eq_true (getFileProcessingStatus g u).allReady with ht | hf
      · exact absurd (hiff.mp ht) (by omega)
      · exact hf
    all_goals simp only [getFileProcessingStatus, hu, if_false]

/-- Witness for claim C8: a state with one record in status processing has
allReady = false. -/
theorem claim_C8_witness :
    (getFileProcessingStatus
      { userFileStores := [("u1", "store-1")],
        uploadedFiles := [("u1_a.txt_3",
          { userId := "u1", fileName := "a.txt", size := 3, uploadedAt := 0,
            storeName := some "store-1", processingStatus := .processing })] }
      "u1").allReady = false :=
  (claim_C8_all_ready
    { userFileStores := [("u1", "store-1")],
      uploadedFiles := [("u1_a.txt_3",
        { userId := "u1", fileName := "a.txt", size := 3, uploadedAt := 0,
          storeName := some "store-1", processingStatus := .processing })] }
    "u1").1 (Or.inl (by decide))

/-- Claim C5: the stream normalizer tries the chunk shapes in the source's
fixed priority order (plain string, text-extraction method, text field,
candidates parts array filtered to drop executableCode parts, nested
response wrapper), the output is the in-order concatenation of only the
extracted text content, chunks yielding no text contribute nothing, and a
stream yielding no text still closes cleanly with only a soft warning. -/
theorem claim_C5_stream_normalization :
    (∀ chunks : List Chunk, (iteratorToStream chunks).1 = chunks.filterMap chunkContribution) ∧
    (∀ s, extractText (.prim s) = s) ∧
    (∀ o r, o.text = some (.tfn r) → extractText (.obj o) = r.getD "") ∧
    (∀ o s, o.text = some (.tstr s) → s ≠ "" → extractText (.obj o) = s) ∧
    (∀ o ps, textTruthy o.text = false → o.parts = some ps →
      extractText (.obj o) = partsText ps) ∧
    (∀ o resp, textTruthy o.text = false → o.parts = none → o.response = some resp →
      respTextTruthy resp.text = true → extractText (.obj o) = respTextString resp.text) ∧
    (∀ o resp ps, textTruthy o.text = false → o.parts = none → o.response = some resp →
      respTextTruthy resp.text = false → resp.parts = some ps →
      extractText (.obj o) = partsText ps) ∧
    (∀ chunks, (∀ c ∈ chunks, chunkContribution c = none) →
      (iteratorToStream chunks).1 = [] ∧ (iteratorToStream chunks).2 ≠ .errored) ∧
    (iteratorToStream
        [Chunk.prim "Hello",
         Chunk.obj { parts := some [{ text := some "print(1)", executableCode := true },
                                    { text := some " world" }] },
         Chunk.obj {}] = (["Hello", " world"], .closed false)) := by
  refine ⟨fun chunks => streamRunGo_eq_filterMap chunks false, fun s => rfl, ?_, ?_, ?_, ?_, ?_, ?_, ?_⟩
  · intro o r h
    simp [extractText, h]
  · intro o s h hs
    simp [extractText, h, hs]
  · intro o ps ht hp
    match hrep : o.text, ht with
    | none, _ => simp [extractText, hrep, extractRest, hp]
    | some (.tstr s), ht =>
      have hs : (s != "") = false := by simpa [textTruthy, hrep] using ht
      simp [extractText, hrep, hs, extractRest, hp]
  · intro o resp ht hp hr hrt
    match hrep : o.text, ht with
    | none, _ => simp [extractText, hrep, extractRest, hp, hr, hrt]
    | some (.tstr s), ht =>
      have hs : (s != "") = false := by simpa [textTruthy, hrep] using ht
      simp [extractText, hrep, hs, extractRest, hp, hr, hrt]
  · intro o resp ps ht hp hr hrt hps
    match hrep : o.text, ht with
    | none, _ => simp [extractText, hrep, extractRest, hp, hr, hrt, hps]
    | some (.tstr s), ht =>
      have hs : (s != "") = false := by simpa [textTruthy, hrep] using ht
      simp [extractText, hrep, hs, extractRest, hp, hr, hrt, hps]
  · intro chunks hall
    refine ⟨?_, ?_⟩
    · show (streamRunGo chunks false).1 = []
      rw [streamRunGo_eq_filterMap chunks false]
      exact List.filterMap_eq_nil.mpr hall
    · simp [iteratorToStream]
  · decide

/-- Witness for claim C5: the text-extraction-method shape takes priority. -/
theorem claim_C5_witness :
    extractText (.obj { text := some (.tfn (some "hi")),
                        parts := some [{ text := some "ignored" }] }) = "hi" :=
  claim_C5_stream_normalization.2.2.1
    { text := some (.tfn (some "hi")), parts := some [{ text := some "ignored" }] }
    (some "hi") rfl

/-- Claim C10: a chunk whose extracted text trims to the empty string is not
forwarded: it contributes nothing to the output stream even when it yielded
text. -/
theorem claim_C10_whitespace_dropped (c : Chunk) (hws : jsTrim (extractText c) = "") :
    chunkContribution c = none ∧
    ∀ pre post : List Chunk,
      (iteratorToStream (pre ++ c :: post)).1 = (iteratorToStream (pre ++ post)).1 := by
  have hcontrib : chunkContribution c = none := by
    simp [chunkContribution, hws]
  refine ⟨hcontrib, fun pre post => ?_⟩
  show (streamRunGo (pre ++ c :: post) false).1 = (streamRunGo (pre ++ post) false).1
  rw [streamRunGo_eq_filterMap _ false, streamRunGo_eq_filterMap _ false]
  simp [List.filterMap_append, hcontrib]

theorem tryModelsGo_adv {α : Type} (attempt : String → AttemptRes α) (m : String)
    (rest : List String) (lastE : Option GenErr) (e : GenErr) (hm : attempt m = .err e)
    (h44 : e.status = some 404 ∨ e.code = some 404 ∨ e.status = some 400 ∨ e.code = some 400) :
    tryModelsGo attempt (m :: rest) lastE =
      ((tryModelsGo attempt rest (some e)).1, m :: (tryModelsGo attempt rest (some e)).2) := by
  by_cases h4 : e.status = some 404 ∨ e.code = some 404
  · simp [tryModelsGo, hm, h4]
  · have h0 : e.status = some 400 ∨ e.code = some 400 := by tauto
    simp [tryModelsGo, hm, h4, h0]

/-- Claim C4: the orchestrator tries the fixed candidate list in order,
advancing past 404 and 400 class errors, stopping at once on a 429 (which
the caller routes to the rate-limit diagnostic), returning the second
candidate's stream when the first fails with model-not-found, and surfacing
the last error (or the generic no-candidates error) when every candidate
fails. -/
theorem claim_C4_model_fallback {α : Type} (attempt : String → AttemptRes α) :
    modelsList = ["gemini-2.5-flash", "gemini-2.5-pro"] ∧
    (∀ m rest lastE e, attempt m = .err e →
      (e.status = some 404 ∨ e.code = some 404 ∨ e.status = some 400 ∨ e.code = some 400) →
      tryModelsGo attempt (m :: rest) lastE =
        ((tryModelsGo attempt rest (some e)).1, m :: (tryModelsGo attempt rest (some e)).2)) ∧
    (∀ m rest lastE e, attempt m = .err e → e.status = some 429 →
      e.code ≠ some 404 → e.code ≠ some 400 →
      tryModelsGo attempt (m :: rest) lastE = (.error e, [m])) ∧
    (∀ e : GenErr, e.status = some 429 →
      (∀ t ∈ emptyStoreSubstrs, strIncludes (jsToLower e.msg) t = false) →
      routeQueryError e = rateLimitMessage) ∧
    (∀ q u e, u ≠ "" → queryRAG q u (.error e) = .diag (routeQueryError e)) ∧
    (∀ eA vB, attempt "gemini-2.5-flash" = .err eA →
      (eA.status = some 404 ∨ eA.code = some 404) →
      attempt "gemini-2.5-pro" = .ok vB →
      (queryWithFileSearchStream attempt).1 = .ok vB) ∧
    (∀ eA eB, attempt "gemini-2.5-flash" = .err eA →
      (eA.status = some 404 ∨ eA.code = some 404 ∨ eA.status = some 400 ∨ eA.code = some 400) →
      attempt "gemini-2.5-pro" = .err eB →
      (eB.status = some 404 ∨ eB.code = some 404 ∨ eB.status = some 400 ∨ eB.code = some 400) →
      (queryWithFileSearchStream attempt).1 = .error eB) ∧
    (∀ lastE : Option GenErr,
      tryModelsGo attempt [] lastE = (.error (lastE.getD noModelsErr), [])) := by
  refine ⟨rfl, fun m rest lastE e hm h44 => tryModelsGo_adv attempt m rest lastE e hm h44,
    ?_, ?_, ?_, ?_, ?_, fun lastE => rfl⟩
  · intro m rest lastE e hm h429 hc4 hc0
    have h4 : ¬(e.status = some 404 ∨ e.code = some 404) := by
      rintro (h | h)
      · simp [h429] at h
      · exact hc4 h
    have h0 : ¬(e.status = some 400 ∨ e.code = some 400) := by
      rintro (h | h)
      · simp [h429] at h
      · exact hc0 h
    simp [tryModelsGo, hm, h4, h0]
  · intro e h429 hsub
    have hany : emptyStoreSubstrs.any (fun t => strIncludes (jsToLower e.msg) t) = false := by
      simp only [List.any_eq_false]
      intro t ht
      simp [hsub t ht]
    simp [routeQueryError, hany, h429]
  · intro q u e hu
    simp [queryRAG, hu]
  · intro eA vB hA h44 hB
    show (tryModelsGo attempt ["gemini-2.5-flash", "gemini-2.5-pro"] none).1 = .ok vB
    rw [tryModelsGo_adv attempt _ _ _ _ hA (by tauto)]
    simp [tryModelsGo, hB]
  · intro eA eB hA h44A hB h44B
    show (tryModelsGo attempt ["gemini-2.5-flash", "gemini-2.5-pro"] none).1 = .error eB
    rw [tryModelsGo_adv attempt _ _ _ _ hA h44A]
    show (tryModelsGo attempt ["gemini-2.5-pro"] (some eA)).1 = .error eB
    rw [tryModelsGo_adv attempt _ _ _ _ hB h44B]
    rfl

/-- Witness for claim C4: with the first candidate failing 404 and the second
succeeding, the orchestrator returns the second candidate's stream; a plain
429 error routes to the rate-limit diagnostic. -/
theorem claim_C4_witness :
    (queryWithFileSearchStream attemptC4Ex).1 = .ok 7 ∧
    routeQueryError { status := some 429, msg := "Resource exhausted" } = rateLimitMessage :=
  ⟨(claim_C4_model_fallback attemptC4Ex).2.2.2.2.2.1
      { status := some 404, msg := "model unavailable" } 7 (by decide) (Or.inl rfl) (by decide),
   (claim_C4_model_fallback attemptC4Ex).2.2.2.1
      { status := some 429, msg := "Resource exhausted" } rfl (by decide)⟩

theorem map_data_asString (L : List (List Char)) :
    (L.map List.asString).map String.data = L := by
  induction L with
  | nil => rfl
  | cons a t ih => simp [List.asString, ih]

theorem splitKeepGo_join (l cur : List Char) : (splitKeepGo cur l).join = cur ++ l := by
  induction l generalizing cur with
  | nil => simp [splitKeepGo]
  | cons c cs ih =>
    by_cases h : (c = ' ' ∨ c = '\n') ∧ cur ≠ []
    · simp [splitKeepGo, h, ih]
    · simp [splitKeepGo, h, ih]

theorem concatTexts_createErrorStream (m : String) : concatTexts (createErrorStream m) = m := by
  unfold concatTexts createErrorStream
  rw [map_data_asString, splitKeepGo_join]
  rfl

/-- Claim C9: for every question text and backend outcome, a query with an
empty user identifier returns the deterministic authentication diagnostic,
whose stream text is exactly the authentication message; the call never
throws. -/
theorem claim_C9_empty_user_auth_stream (q : String) (outcome : Except GenErr (List Chunk)) :
    queryRAG q "" outcome = .diag authErrorMessage ∧
    concatTexts (createErrorStream authErrorMessage) = authErrorMessage :=
  ⟨by simp [queryRAG], concatTexts_createErrorStream authErrorMessage⟩

/-- Witness for claim C10: a whitespace-only plain chunk is dropped. -/
theorem claim_C10_witness :
    chunkContribution (.prim " ") = none ∧
    (iteratorToStream [Chunk.prim "a", Chunk.prim " ", Chunk.prim "b"]).1 =
      (iteratorToStream [Chunk.prim "a", Chunk.prim "b"]).1 :=
  ⟨(claim_C10_whitespace_dropped (.prim " ") (by decide)).1,
   (claim_C10_whitespace_dropped (.prim " ") (by decide)).2 [Chunk.prim "a"] [Chunk.prim "b"]⟩

end GeminiRag
